import Mathlib

/-!
Verification of the reconciliation core of `plugins/modules/kerberos_keys.py`.

The module reconciles a declared desired state for one remote Kerberos key
record against the remote service: it resolves the existing resource
(by id, or by a name filter), detects drift between the desired payload and
the existing record, and issues at most one of create / update / delete,
honouring check (dry-run) mode, and assembles a result report.

The embedding below mirrors the Python source definition by definition:
  - `Params` is the module parameter dict: the options declared in
    `main`'s `module_args` (id, state, comment, tags) plus the connection
    options added by the shared base module (csp_url, api_key), which are
    exactly the names the source excludes from the payload.
  - `payload_params` is the dict comprehension in `KerberosModule.__init__`.
  - `payload_changed` is `KerberosModule.payload_changed`.
  - `find` is `KerberosModule.find`; `create`, `update`, `delete` are the
    corresponding methods; `run_command` is `KerberosModule.run_command`.
Remote calls go through an abstract `Client` (the generated `KerberosApi`),
and every issued write is recorded in a `WriteCall` log so that frame
properties (no remote write issued) are provable.
-/

namespace BloxoneKerberos

/-- Dynamic values carried by module parameters and resource fields. -/
inductive Value where
  | vStr : String → Value
  | vInt : Int → Value
  | vBool : Bool → Value
  deriving DecidableEq, Repr

/-- A field mapping: a Python dict with string keys, in insertion order. -/
abbrev Mapping := List (String × Value)

/-- A structured remote API error (`ApiException`): status, reason, body. -/
structure ApiErr where
  status : Nat
  reason : String
  body : String
  deriving DecidableEq, Repr

/-- A remote Kerberos key record: field name to optional value. A field
holding `none` corresponds to an unset (None) attribute of the model. -/
structure Resource where
  fields : List (String × Option Value)
  deriving DecidableEq, Repr

/-- Serialization used throughout the source:
`model_dump(by_alias=True, exclude_none=True)` — the mapping of exactly the
fields that hold a value. -/
def Resource.model_dump (r : Resource) : Mapping :=
  r.fields.filterMap (fun kv => kv.2.map (fun v => (kv.1, v)))

/-- Attribute access `existing.id`: the value of the `id` field, or None
(`none`) when the field is unset. -/
def Resource.id (r : Resource) : Option Value :=
  (r.fields.lookup "id").join

/-- The module parameter dict `self.params`. Its keys are exactly the
declared options: `module_args` in `main` declares id, state, comment and
tags, and the shared base module adds the connection options csp_url and
api_key (the names listed in the source's `exclude`). `state` is
schema-validated to the choices "present" / "absent" (default "present"). -/
structure Params where
  id : Option String
  state : String
  comment : Option Value
  tags : Option Value
  csp_url : Option Value
  api_key : Option Value
  deriving DecidableEq, Repr

/-- `self.params.items()`: the declared options in declaration order, each
with its (possibly None) value. -/
def Params.items (p : Params) : List (String × Option Value) :=
  [("id", p.id.map Value.vStr),
   ("state", some (Value.vStr p.state)),
   ("comment", p.comment),
   ("tags", p.tags),
   ("csp_url", p.csp_url),
   ("api_key", p.api_key)]

/-- Dict access `self.params[k]`. The outer `none` is a Python `KeyError`:
the dict holds exactly the declared options and no other key. -/
def Params.get (p : Params) (k : String) : Option (Option Value) :=
  p.items.lookup k

/-- The `exclude` list of `KerberosModule.__init__`. -/
def exclude : List String := ["state", "csp_url", "api_key", "id"]

/-- The payload dict comprehension of `KerberosModule.__init__`:
every declared item whose value is not None and whose key is not excluded. -/
def payload_params (p : Params) : Mapping :=
  p.items.filterMap (fun kv =>
    match kv.2 with
    | none => none
    | some v => if kv.1 ∈ exclude then none else some (kv.1, v))

/-- Modelled from the spec: `is_changed` is provided by
`BloxoneAnsibleModule` in `plugins/module_utils/modules.py`, which is not
among the sources. Per the spec (Drift Detector), it returns true iff some
key of the desired payload has a value that differs from, or is missing
in, the serialized existing mapping. -/
def is_changed (existingMap : Mapping) (payload : Mapping) : Bool :=
  payload.any (fun kv => ! (existingMap.lookup kv.1 == some kv.2))

/-- `KerberosModule.payload_changed`: a missing existing resource always
counts as changed (create); otherwise compare the existing resource's
non-None serialized fields against the payload params. -/
def payload_changed (existing : Option Resource) (p : Params) : Bool :=
  match existing with
  | none => true
  | some r => is_changed r.model_dump (payload_params p)

/-- Result of `KerberosApi.read`: the resource, a `NotFoundException`
(a subclass of `ApiException`, so it carries the structured error), or a
generic `ApiException`. -/
inductive ReadResult where
  | found : Resource → ReadResult
  | notFound : ApiErr → ReadResult
  | err : ApiErr → ReadResult
  deriving DecidableEq, Repr

/-- The generated API client (`KerberosApi`), as consumed by the module. -/
structure Client where
  read : String → ReadResult
  list : String → Except ApiErr (List Resource)
  create : Mapping → Except ApiErr Resource
  update : Option Value → Mapping → Except ApiErr Resource
  delete : Option Value → Except ApiErr Unit

/-- Fatal conditions raised inside `find` / `run_command`. -/
inductive Failure where
  | apiError : ApiErr → Failure
  | multipleFound : List Resource → Failure
  | keyError : String → Failure
  deriving DecidableEq, Repr

/-- Python `str()` of a field value, as an f-string would render it. -/
def Value.render : Value → String
  | Value.vStr s => s
  | Value.vInt n => toString n
  | Value.vBool b => if b then "True" else "False"

/-- Python `str()` of a possibly-None value. -/
def pyStr : Option Value → String
  | none => "None"
  | some v => v.render

/-- The filter expression built by `find`: the f-string
`name=='...'` around the rendered parameter value. -/
def filterExpr (nameVal : Option Value) : String :=
  String.append (String.append "name==\x27" (pyStr nameVal)) "\x27"

/-- Rendering of one resource field for a failure message. -/
def renderField : String × Option Value → String
  | (k, none) => String.append k "=None"
  | (k, some v) => String.append (String.append k "=") v.render

/-- Rendering of a resource for the multiple-match failure message. -/
def Resource.render (r : Resource) : String :=
  String.intercalate ", " (r.fields.map renderField)

/-- Rendering of the candidate list for the multiple-match message. -/
def renderResources (rs : List Resource) : String :=
  String.intercalate "; " (rs.map Resource.render)

/-- `KerberosModule.find`. With an id: read by id, tolerating not-found
only when state is absent (otherwise the `NotFoundException` is re-raised).
Without an id: the source reads `self.params["name"]`, but no option named
`name` is declared in the argument spec, so the dict access raises
`KeyError` before any list call; the filter-lookup branch below it mirrors
the source's zero / one / many handling of `resp.results`. -/
def find (p : Params) (c : Client) : Except Failure (Option Resource) :=
  match p.id with
  | some i =>
    match c.read i with
    | ReadResult.found r => Except.ok (some r)
    | ReadResult.notFound e =>
      if p.state == "absent" then Except.ok none
      else Except.error (Failure.apiError e)
    | ReadResult.err e => Except.error (Failure.apiError e)
  | none =>
    match p.get "name" with
    | none => Except.error (Failure.keyError "name")
    | some nv =>
      match c.list (filterExpr nv) with
      | Except.error e => Except.error (Failure.apiError e)
      | Except.ok rs =>
        match rs with
        | [r] => Except.ok (some r)
        | [] => Except.ok none
        | _ => Except.error (Failure.multipleFound rs)

/-- One remote write call, as issued to the client. -/
inductive WriteCall where
  | createCall : Mapping → WriteCall
  | updateCall : Option Value → Mapping → WriteCall
  | deleteCall : Option Value → WriteCall
  deriving DecidableEq, Repr

/-- A value stored in the result dict. -/
inductive RVal where
  | rBool : Bool → RVal
  | rStr : String → RVal
  | rNull : RVal
  | rVal : Value → RVal
  | rMap : Mapping → RVal
  | rDiff : Mapping → RVal → RVal
  deriving DecidableEq, Repr

/-- The result dict passed to `exit_json`. -/
abbrev ResultMap := List (String × RVal)

/-- Python dict assignment `result[k] = v`: overwrite in place if the key
exists, else append (insertion order preserved). -/
def setk (m : ResultMap) (k : String) (v : RVal) : ResultMap :=
  if (m.lookup k).isSome then
    m.map (fun kv => if kv.1 == k then (k, v) else kv)
  else m ++ [(k, v)]

/-- `result = dict(changed=False, object=dict(), id=None)`. -/
def initialResult : ResultMap :=
  [("changed", RVal.rBool false), ("object", RVal.rMap []), ("id", RVal.rNull)]

/-- How one invocation terminates: `exit_json` with a result dict,
`fail_json` with a message, or an uncaught Python exception. -/
inductive Outcome where
  | success : ResultMap → Outcome
  | failed : String → Outcome
  | crashed : String → Outcome
  deriving DecidableEq, Repr

/-- The `fail_json` message of the `except ApiException` handler:
`Failed to execute command: status reason body`. -/
def apiFailMsg (e : ApiErr) : String :=
  String.append "Failed to execute command: "
    (String.append (toString e.status)
      (String.append " " (String.append e.reason (String.append " " e.body))))

/-- `KerberosModule.create`: in check mode return None without any call;
otherwise issue the create and dump the returned resource. The issued
call is logged even when it fails. -/
def create (p : Params) (c : Client) (check_mode : Bool) :
    Except ApiErr (Option Mapping) × List WriteCall :=
  if check_mode then (Except.ok none, [])
  else
    match c.create (payload_params p) with
    | Except.error e => (Except.error e, [WriteCall.createCall (payload_params p)])
    | Except.ok r =>
      (Except.ok (some r.model_dump), [WriteCall.createCall (payload_params p)])

/-- `KerberosModule.update`: in check mode return None without any call;
otherwise update at `existing.id` and dump the returned resource. -/
def update (p : Params) (c : Client) (check_mode : Bool) (er : Resource) :
    Except ApiErr (Option Mapping) × List WriteCall :=
  if check_mode then (Except.ok none, [])
  else
    match c.update er.id (payload_params p) with
    | Except.error e =>
      (Except.error e, [WriteCall.updateCall er.id (payload_params p)])
    | Except.ok r =>
      (Except.ok (some r.model_dump), [WriteCall.updateCall er.id (payload_params p)])

/-- `KerberosModule.delete`: in check mode return without any call;
otherwise delete at `existing.id`. -/
def delete (c : Client) (check_mode : Bool) (er : Resource) :
    Except ApiErr Unit × List WriteCall :=
  if check_mode then (Except.ok (), [])
  else
    match c.delete er.id with
    | Except.error e => (Except.error e, [WriteCall.deleteCall er.id])
    | Except.ok _ => (Except.ok (), [WriteCall.deleteCall er.id])

/-- The state-driven branch of `run_command` (the if / elif chain): given
the resolved existing resource, produce `item`, the updated result dict,
and the writes issued; errors are the `ApiException`s the branch may
raise. `item` is `none` exactly when a check-mode create / update returned
None; the empty mapping is Python's `item = dict()`. -/
def step (p : Params) (c : Client) (check_mode : Bool) (existing : Option Resource) :
    Except ApiErr (Option Mapping × ResultMap) × List WriteCall :=
  match existing with
  | none =>
    if p.state == "present" then
      match create p c check_mode with
      | (Except.error e, ws) => (Except.error e, ws)
      | (Except.ok item, ws) =>
        (Except.ok (item,
          setk (setk initialResult "changed" (RVal.rBool true))
            "msg" (RVal.rStr "Kerberos created")), ws)
    else (Except.ok (some [], initialResult), [])
  | some er =>
    if p.state == "present" then
      if payload_changed (some er) p then
        match update p c check_mode er with
        | (Except.error e, ws) => (Except.error e, ws)
        | (Except.ok item, ws) =>
          (Except.ok (item,
            setk (setk initialResult "changed" (RVal.rBool true))
              "msg" (RVal.rStr "Kerberos updated")), ws)
      else (Except.ok (some [], initialResult), [])
    else if p.state == "absent" then
      match delete c check_mode er with
      | (Except.error e, ws) => (Except.error e, ws)
      | (Except.ok _, ws) =>
        (Except.ok (some [],
          setk (setk initialResult "changed" (RVal.rBool true))
            "msg" (RVal.rStr "Kerberos deleted")), ws)
    else (Except.ok (some [], initialResult), [])

/-- Storage of `item` in a result field: Python stores the object itself,
so None becomes null and a mapping stays a mapping. -/
def itemRVal : Option Mapping → RVal
  | none => RVal.rNull
  | some m => RVal.rMap m

/-- Storage of an optional value (such as `existing.id`) in a result
field. -/
def rvalOfOpt : Option Value → RVal
  | none => RVal.rNull
  | some v => RVal.rVal v

/-- The `diff.before` mapping: the dump of the existing resource when one
existed, else the empty mapping. -/
def beforeOf : Option Resource → Mapping
  | some r => r.model_dump
  | none => []

/-- The result id: the existing resource's id when one existed, else
`item["id"]` when `item` is truthy (non-empty) and has that key, else
None. -/
def idOf (existing : Option Resource) (item : Option Mapping) : RVal :=
  match existing with
  | some r => rvalOfOpt r.id
  | none =>
    match item with
    | some m =>
      match m.lookup "id" with
      | some v => RVal.rVal v
      | none => RVal.rNull
    | none => RVal.rNull

/-- The non-check-mode result assembly at the end of `run_command`:
`result["diff"]`, `result["object"]`, `result["id"]`. -/
def assemble (existing : Option Resource) (item : Option Mapping)
    (result1 : ResultMap) : ResultMap :=
  let result2 := setk result1 "diff" (RVal.rDiff (beforeOf existing) (itemRVal item))
  let result3 := setk result2 "object" (itemRVal item)
  setk result3 "id" (idOf existing item)

/-- The body of `run_command` after `self.existing = self.find()`: run the
state-driven branch; on `ApiException`, `fail_json` with the structured
message; in check mode, `exit_json` immediately with the result so far;
otherwise assemble diff / object / id and `exit_json`. -/
def run_resolved (p : Params) (c : Client) (check_mode : Bool)
    (existing : Option Resource) : Outcome × List WriteCall :=
  match step p c check_mode existing with
  | (Except.error e, ws) => (Outcome.failed (apiFailMsg e), ws)
  | (Except.ok (item, result1), ws) =>
    if check_mode then (Outcome.success result1, ws)
    else (Outcome.success (assemble existing item result1), ws)

/-- `KerberosModule.run_command`: resolve the existing resource, then run
the reconciliation. A `KeyError` from the dict access in `find` is not an
`ApiException` and escapes uncaught; the multiple-match `fail_json` and the
`ApiException` handler produce failures. -/
def run_command (p : Params) (c : Client) (check_mode : Bool) :
    Outcome × List WriteCall :=
  match find p c with
  | Except.error (Failure.keyError k) =>
    (Outcome.crashed (String.append "KeyError: " k), [])
  | Except.error (Failure.multipleFound rs) =>
    (Outcome.failed (String.append "Found multiple Kerberos: " (renderResources rs)), [])
  | Except.error (Failure.apiError e) => (Outcome.failed (apiFailMsg e), [])
  | Except.ok existing => run_resolved p c check_mode existing

/-- The changed flag as computed by the branch structure of `run_command`
for a given resolved existing resource and declared state. -/
def computedChanged (p : Params) (existing : Option Resource) : Bool :=
  match existing with
  | none => p.state == "present"
  | some er =>
    if p.state == "present" then payload_changed (some er) p
    else p.state == "absent"

/-- The changed field of a successful outcome. -/
def changedOf : Outcome → Option RVal
  | Outcome.success r => r.lookup "changed"
  | _ => none

/-- The object field of a successful outcome. -/
def objectOf : Outcome → Option RVal
  | Outcome.success r => r.lookup "object"
  | _ => none

/-- The msg field of a successful outcome. -/
def msgOf : Outcome → Option RVal
  | Outcome.success r => r.lookup "msg"
  | _ => none

/-! Concrete fixtures used by witnesses and counterexamples. -/

/-- A not-found error as the remote raises it. -/
def errNF : ApiErr := ⟨404, "Not Found", "record does not exist"⟩

/-- A generic remote failure. -/
def errSrv : ApiErr := ⟨500, "Server Error", "backend unavailable"⟩

/-- A remote record whose comment is "old". -/
def resOld : Resource :=
  ⟨[("id", some (Value.vStr "k1")), ("comment", some (Value.vStr "old"))]⟩

/-- The same record after the comment was updated to "new". -/
def resNew : Resource :=
  ⟨[("id", some (Value.vStr "k1")), ("comment", some (Value.vStr "new"))]⟩

/-- Declared input: id k1, state present, comment "new". -/
def pUpd : Params := ⟨some "k1", "present", some (Value.vStr "new"), none, none, none⟩

/-- Declared input: id k1, state present, comment "old". -/
def pOld : Params := ⟨some "k1", "present", some (Value.vStr "old"), none, none, none⟩

/-- Declared input: id k1, state absent. -/
def pDel : Params := ⟨some "k1", "absent", none, none, none, none⟩

/-- Declared input: id zz (no such record), state absent. -/
def pAbsent : Params := ⟨some "zz", "absent", none, none, none, none⟩

/-- Declared input: id zz (no such record), state present. -/
def pMissing : Params := ⟨some "zz", "present", none, none, none, none⟩

/-- Declared input without an id. -/
def pNoId : Params := ⟨none, "present", some (Value.vStr "x"), none, none, none⟩

/-- A remote world holding `resOld` under id k1; updates return `resNew`. -/
def clientA : Client :=
  { read := fun i => if i == "k1" then ReadResult.found resOld else ReadResult.notFound errNF,
    list := fun _ => Except.ok [],
    create := fun _ => Except.error errSrv,
    update := fun _ _ => Except.ok resNew,
    delete := fun _ => Except.ok () }

/-- The remote world after the update: k1 now holds `resNew`. -/
def clientB : Client :=
  { read := fun i => if i == "k1" then ReadResult.found resNew else ReadResult.notFound errNF,
    list := fun _ => Except.ok [],
    create := fun _ => Except.error errSrv,
    update := fun _ _ => Except.ok resNew,
    delete := fun _ => Except.ok () }

/-- A remote world where every call fails with `errSrv`. -/
def clientErr : Client :=
  { read := fun _ => ReadResult.err errSrv,
    list := fun _ => Except.error errSrv,
    create := fun _ => Except.error errSrv,
    update := fun _ _ => Except.error errSrv,
    delete := fun _ => Except.error errSrv }

/-- A remote world holding `resOld` under k1 where all writes fail. -/
def clientWriteErr : Client :=
  { read := fun i => if i == "k1" then ReadResult.found resOld else ReadResult.notFound errNF,
    list := fun _ => Except.ok [],
    create := fun _ => Except.error errSrv,
    update := fun _ _ => Except.error errSrv,
    delete := fun _ => Except.error errSrv }

/-- An empty remote world: create succeeds and returns `resNew`. -/
def clientEmpty : Client :=
  { read := fun _ => ReadResult.notFound errNF,
    list := fun _ => Except.ok [],
    create := fun _ => Except.ok resNew,
    update := fun _ _ => Except.ok resNew,
    delete := fun _ => Except.ok () }

/-! The claims. -/

/-- A Boolean that is not true is false. -/
theorem bool_not_true {b : Bool} (h : ¬ b = true) : b = false := by
  cases b
  · rfl
  · exact absurd rfl h

/-- C1: for every invocation, the pair (existing present or absent,
declared state present or absent) together with the drift decision drives
exactly one action: existing absent with state present issues exactly the
create call and reports changed true; existing present, state present and
no drift issues no write and reports changed false; existing present,
state present and drift issues exactly the update call and reports changed
true; existing absent with state absent issues no write and reports
changed false; existing present with state absent issues exactly the
delete call and reports changed true; no other remote write is issued. -/
theorem c1_transition_table (p : Params) (c : Client) :
    (p.state = "present" →
      (run_resolved p c false none).2 = [WriteCall.createCall (payload_params p)] ∧
      (∀ r, (run_resolved p c false none).1 = Outcome.success r →
        r.lookup "changed" = some (RVal.rBool true))) ∧
    (∀ er, p.state = "present" → payload_changed (some er) p = false →
      (run_resolved p c false (some er)).2 = [] ∧
      (∃ r, (run_resolved p c false (some er)).1 = Outcome.success r ∧
        r.lookup "changed" = some (RVal.rBool false))) ∧
    (∀ er, p.state = "present" → payload_changed (some er) p = true →
      (run_resolved p c false (some er)).2 =
        [WriteCall.updateCall er.id (payload_params p)] ∧
      (∀ r, (run_resolved p c false (some er)).1 = Outcome.success r →
        r.lookup "changed" = some (RVal.rBool true))) ∧
    (p.state = "absent" →
      (run_resolved p c false none).2 = [] ∧
      (∃ r, (run_resolved p c false none).1 = Outcome.success r ∧
        r.lookup "changed" = some (RVal.rBool false))) ∧
    (∀ er, p.state = "absent" →
      (run_resolved p c false (some er)).2 = [WriteCall.deleteCall er.id] ∧
      (∀ r, (run_resolved p c false (some er)).1 = Outcome.success r →
        r.lookup "changed" = some (RVal.rBool true))) := by
  refine ⟨?_, ?_, ?_, ?_, ?_⟩
  · intro hst
    simp only [run_resolved, step, hst, create]
    cases hc : c.create (payload_params p) with
    | error e =>
      simp [hc, assemble, setk, initialResult]
    | ok r =>
      simp [hc, assemble, setk, initialResult]
  · intro er hst hpc
    simp [run_resolved, step, hst, hpc, assemble, setk, initialResult, itemRVal]
  · intro er hst hpc
    simp only [run_resolved, step, hst, hpc, update]
    cases hu : c.update er.id (payload_params p) with
    | error e =>
      simp [hu, assemble, setk, initialResult]
    | ok r =>
      simp [hu, assemble, setk, initialResult]
  · intro hst
    simp [run_resolved, step, hst, assemble, setk, initialResult, itemRVal]
  · intro er hst
    simp only [run_resolved, step, hst, delete]
    cases hd : c.delete er.id with
    | error e =>
      simp [hd, assemble, setk, initialResult]
    | ok u =>
      simp [hd, assemble, setk, initialResult]

/-- C1 witness: the transition table at concrete inputs, covering the
update, no-op, already-absent and delete rows. -/
theorem c1_transition_table_witness :
    ((run_resolved pUpd clientA false (some resOld)).2 =
      [WriteCall.updateCall (some (Value.vStr "k1")) [("comment", Value.vStr "new")]]) ∧
    ((run_resolved pOld clientA false (some resOld)).2 = []) ∧
    ((run_resolved pAbsent clientA false none).2 = []) ∧
    ((run_resolved pDel clientA false (some resOld)).2 =
      [WriteCall.deleteCall (some (Value.vStr "k1"))]) := by
  refine ⟨?_, ?_, ?_, ?_⟩
  · exact ((c1_transition_table pUpd clientA).2.2.1 resOld rfl (by decide)).1
  · exact ((c1_transition_table pOld clientA).2.1 resOld rfl (by decide)).1
  · exact ((c1_transition_table pAbsent clientA).2.2.2.1 rfl).1
  · exact ((c1_transition_table pDel clientA).2.2.2.2 resOld rfl).1

/-- C2: under check (dry-run) mode, for every resolved existing resource
no remote write call is issued, the invocation succeeds with the changed
flag computed exactly as the action decision would have it, the diff is
never assembled, the object and id fields still hold their initial values,
and no result field beyond changed, object, id and msg is populated. -/
theorem c2_dry_run (p : Params) (c : Client) (existing : Option Resource) :
    (run_resolved p c true existing).2 = [] ∧
    (∃ r, (run_resolved p c true existing).1 = Outcome.success r ∧
      r.lookup "changed" = some (RVal.rBool (computedChanged p existing)) ∧
      r.lookup "diff" = none ∧
      r.lookup "object" = some (RVal.rMap []) ∧
      r.lookup "id" = some RVal.rNull ∧
      (r.map Prod.fst = ["changed", "object", "id"] ∨
        r.map Prod.fst = ["changed", "object", "id", "msg"])) := by
  cases existing with
  | none =>
    by_cases hst : p.state == "present"
    · have h1 : run_resolved p c true none =
        (Outcome.success [("changed", RVal.rBool true), ("object", RVal.rMap []),
          ("id", RVal.rNull), ("msg", RVal.rStr "Kerberos created")], []) := by
        simp [run_resolved, step, hst, create, setk, initialResult]
      have h2 : computedChanged p none = true := by
        simp [computedChanged, hst]
      rw [h1, h2]
      exact ⟨rfl, _, rfl, by decide⟩
    · have h1 : run_resolved p c true none = (Outcome.success initialResult, []) := by
        simp [run_resolved, step, hst]
      have h2 : computedChanged p none = false := by
        simp [computedChanged, bool_not_true hst]
      rw [h1, h2]
      exact ⟨rfl, _, rfl, by decide⟩
  | some er =>
    by_cases hst : p.state == "present"
    · by_cases hpc : payload_changed (some er) p
      · have h1 : run_resolved p c true (some er) =
          (Outcome.success [("changed", RVal.rBool true), ("object", RVal.rMap []),
            ("id", RVal.rNull), ("msg", RVal.rStr "Kerberos updated")], []) := by
          simp [run_resolved, step, hst, hpc, update, setk, initialResult]
        have h2 : computedChanged p (some er) = true := by
          simp [computedChanged, hst, hpc]
        rw [h1, h2]
        exact ⟨rfl, _, rfl, by decide⟩
      · have h1 : run_resolved p c true (some er) =
            (Outcome.success initialResult, []) := by
          simp [run_resolved, step, hst, hpc]
        have h2 : computedChanged p (some er) = false := by
          simp [computedChanged, hst, bool_not_true hpc]
        rw [h1, h2]
        exact ⟨rfl, _, rfl, by decide⟩
    · by_cases hab : p.state == "absent"
      · have h1 : run_resolved p c true (some er) =
          (Outcome.success [("changed", RVal.rBool true), ("object", RVal.rMap []),
            ("id", RVal.rNull), ("msg", RVal.rStr "Kerberos deleted")], []) := by
          simp [run_resolved, step, hst, hab, delete, setk, initialResult]
        have h2 : computedChanged p (some er) = true := by
          simp [computedChanged, hst, hab]
        rw [h1, h2]
        exact ⟨rfl, _, rfl, by decide⟩
      · have h1 : run_resolved p c true (some er) =
            (Outcome.success initialResult, []) := by
          simp [run_resolved, step, hst, hab]
        have h2 : computedChanged p (some er) = false := by
          simp [computedChanged, hst, hab]
        rw [h1, h2]
        exact ⟨rfl, _, rfl, by decide⟩

/-- Helper for C3: with no declared id, `find` never reaches the filter
lookup: the parameter dict has no key "name" (the argument spec declares
only id, state, comment, tags and the connection options), so the dict
access raises `KeyError` and the whole invocation crashes with no remote
write issued. -/
theorem find_no_id_keyerror (p : Params) (c : Client) (h : p.id = none) :
    Params.get p "name" = none ∧
    find p c = Except.error (Failure.keyError "name") ∧
    (∀ ch, run_command p c ch = (Outcome.crashed "KeyError: name", [])) := by
  have hg : Params.get p "name" = none := by
    simp [Params.get, Params.items, List.lookup]
  have hf : find p c = Except.error (Failure.keyError "name") := by
    simp [find, h, hg]
  refine ⟨hg, hf, ?_⟩
  intro ch
  simp only [run_command, hf]
  rfl

/-- C3: the claim says that with the declared id absent the resolver
issues a name-equality filter lookup built from declared input and applies
zero / one / many decisioning. On the code this fails: no option named
"name" exists in the declared input, so `self.params["name"]` raises
`KeyError` before any list call; the invocation crashes and no lookup and
no write happen. Concretely, for the no-id input below the run ends in the
uncaught `KeyError` with an empty write log. -/
theorem c3_name_lookup_keyerror :
    pNoId.id = none ∧
    Params.get pNoId "name" = none ∧
    find pNoId clientA = Except.error (Failure.keyError "name") ∧
    run_command pNoId clientA false = (Outcome.crashed "KeyError: name", []) := by
  refine ⟨rfl, rfl, ?_, ?_⟩
  · exact (find_no_id_keyerror pNoId clientA rfl).2.1
  · exact (find_no_id_keyerror pNoId clientA rfl).2.2 false

/-- C4 counterexample: with declared input pUpd (id k1, comment "new"),
against the world clientA (k1 holds comment "old") the first run updates
and reports changed true with the updated record as object; against the
resulting world clientB the second run is a no-op reporting changed false,
but its object field is the empty mapping, not the first run's object. -/
theorem c4_idempotence_counterexample :
    changedOf (run_command pUpd clientA false).1 = some (RVal.rBool true) ∧
    changedOf (run_command pUpd clientB false).1 = some (RVal.rBool false) ∧
    objectOf (run_command pUpd clientA false).1 =
      some (RVal.rMap [("id", Value.vStr "k1"), ("comment", Value.vStr "new")]) ∧
    objectOf (run_command pUpd clientB false).1 = some (RVal.rMap []) ∧
    ¬ objectOf (run_command pUpd clientA false).1 =
        objectOf (run_command pUpd clientB false).1 := by
  refine ⟨rfl, rfl, rfl, rfl, by decide⟩

/-- C4 amended: with target lifecycle present, if the first run reconciled
with changed true and the second run resolves a resource that carries no
drift against the same declared input, then the second run succeeds with
changed false and issues no write — but its object field is the empty
mapping (the no-op branch never stores the resource), so the object is not
identical across the two runs. -/
theorem c4_idempotence_amended (p : Params) (c1 c2 : Client) (er2 : Resource)
    (hst : p.state = "present")
    (_h1 : changedOf (run_command p c1 false).1 = some (RVal.rBool true))
    (h2 : find p c2 = Except.ok (some er2))
    (hnd : payload_changed (some er2) p = false) :
    run_command p c2 false =
      (Outcome.success [("changed", RVal.rBool false), ("object", RVal.rMap []),
        ("id", rvalOfOpt er2.id),
        ("diff", RVal.rDiff er2.model_dump (RVal.rMap []))], []) := by
  simp [run_command, h2, run_resolved, step, hst, hnd, assemble, setk,
    initialResult, itemRVal, idOf, beforeOf]

/-- C4 amended witness: the amended statement at the concrete two-run
scenario of the counterexample. -/
theorem c4_idempotence_amended_witness :
    run_command pUpd clientB false =
      (Outcome.success [("changed", RVal.rBool false), ("object", RVal.rMap []),
        ("id", RVal.rVal (Value.vStr "k1")),
        ("diff", RVal.rDiff [("id", Value.vStr "k1"), ("comment", Value.vStr "new")]
          (RVal.rMap []))], []) := by
  exact c4_idempotence_amended pUpd clientA clientB resNew rfl rfl rfl rfl

/-- C5: with a declared id whose read-by-id signals not-found, the
resolver returns absent when the declared state is absent, and the
invocation then completes normally with changed false and no write;
otherwise the not-found condition is re-raised and surfaces as the fatal
structured failure, with no write issued. -/
theorem c5_notfound_by_id (p : Params) (c : Client) (i : String) (e : ApiErr)
    (hid : p.id = some i) (hr : c.read i = ReadResult.notFound e) :
    (p.state = "absent" →
      find p c = Except.ok none ∧
      run_command p c false =
        (Outcome.success [("changed", RVal.rBool false), ("object", RVal.rMap []),
          ("id", RVal.rNull), ("diff", RVal.rDiff [] (RVal.rMap []))], [])) ∧
    (¬ p.state = "absent" →
      find p c = Except.error (Failure.apiError e) ∧
      run_command p c false = (Outcome.failed (apiFailMsg e), [])) := by
  constructor
  · intro hst
    have hf : find p c = Except.ok none := by
      simp [find, hid, hr, hst]
    refine ⟨hf, ?_⟩
    simp [run_command, hf, run_resolved, step, hst, assemble, setk,
      initialResult, itemRVal, idOf, beforeOf]
  · intro hst
    have hb : (p.state == "absent") = false := beq_eq_false_iff_ne.mpr hst
    have hf : find p c = Except.error (Failure.apiError e) := by
      simp [find, hid, hr, hb]
    exact ⟨hf, by simp [run_command, hf]⟩

/-- C5 witness: the tolerated case at a concrete input — id zz is not on
the remote, state is absent, and the run completes with changed false —
and the fatal case at a concrete present-state input. -/
theorem c5_notfound_by_id_witness :
    run_command pAbsent clientA false =
      (Outcome.success [("changed", RVal.rBool false), ("object", RVal.rMap []),
        ("id", RVal.rNull), ("diff", RVal.rDiff [] (RVal.rMap []))], []) ∧
    run_command pMissing clientA false = (Outcome.failed (apiFailMsg errNF), []) := by
  constructor
  · exact ((c5_notfound_by_id pAbsent clientA "zz" errNF rfl rfl).1 rfl).2
  · exact ((c5_notfound_by_id pMissing clientA "zz" errNF rfl rfl).2 (by decide)).2

/-- The result dict after `result["changed"] = True` and
`result["msg"] = s` on the initial dict. -/
def changedResult (s : String) : ResultMap :=
  setk (setk initialResult "changed" (RVal.rBool true)) "msg" (RVal.rStr s)

/-- The shape of an assembled no-op result: changed stays false and no
msg key exists. -/
theorem assemble_init (ex : Option Resource) (item : Option Mapping) :
    assemble ex item initialResult =
      [("changed", RVal.rBool false), ("object", itemRVal item),
       ("id", idOf ex item),
       ("diff", RVal.rDiff (beforeOf ex) (itemRVal item))] := by
  simp [assemble, setk, initialResult]

/-- The shape of an assembled changed result: changed is true and the msg
key holds the action message. -/
theorem assemble_changed (ex : Option Resource) (item : Option Mapping) (s : String) :
    assemble ex item (changedResult s) =
      [("changed", RVal.rBool true), ("object", itemRVal item),
       ("id", idOf ex item), ("msg", RVal.rStr s),
       ("diff", RVal.rDiff (beforeOf ex) (itemRVal item))] := by
  simp [assemble, changedResult, setk, initialResult]

/-- The writes of `run_resolved` are exactly the writes of its branch. -/
theorem run_resolved_writes (p : Params) (c : Client) (ch : Bool)
    (ex : Option Resource) :
    (run_resolved p c ch ex).2 = (step p c ch ex).2 := by
  rcases hs : step p c ch ex with ⟨res, ws⟩
  cases res with
  | error e => simp [run_resolved, hs]
  | ok pr =>
    rcases pr with ⟨item, result1⟩
    cases ch <;> simp [run_resolved, hs]

/-- Structure of the state-driven branch: its write log is empty or one
call carrying exactly the payload params, and on success the result dict
so far is the initial dict or the initial dict with changed true and one
action message. -/
theorem step_shape (p : Params) (c : Client) (ch : Bool) (ex : Option Resource) :
    ((step p c ch ex).2 = [] ∨
      (step p c ch ex).2 = [WriteCall.createCall (payload_params p)] ∨
      (∃ i, (step p c ch ex).2 = [WriteCall.updateCall i (payload_params p)]) ∨
      (∃ i, (step p c ch ex).2 = [WriteCall.deleteCall i])) ∧
    (∀ item result1 ws, step p c ch ex = (Except.ok (item, result1), ws) →
      result1 = initialResult ∨ ∃ s, result1 = changedResult s) := by
  cases ex with
  | none =>
    by_cases hst : p.state == "present"
    · cases ch with
      | true =>
        constructor
        · simp [step, hst, create]
        · intro item result1 ws hstep
          have hconc : step p c true none =
              (Except.ok (none, changedResult "Kerberos created"), []) := by
            simp [step, hst, create, changedResult]
          rw [hconc] at hstep
          have h1 := congrArg Prod.fst hstep
          injection h1 with h2
          have h3 := congrArg Prod.snd h2
          exact Or.inr ⟨"Kerberos created", h3.symm⟩
      | false =>
        rcases hcr : c.create (payload_params p) with e | r
        · constructor
          · simp [step, hst, create, hcr]
          · intro item result1 ws hstep
            have hconc : step p c false none =
                (Except.error e, [WriteCall.createCall (payload_params p)]) := by
              simp [step, hst, create, hcr]
            rw [hconc] at hstep
            exact absurd (congrArg Prod.fst hstep) (by simp)
        · constructor
          · simp [step, hst, create, hcr]
          · intro item result1 ws hstep
            have hconc : step p c false none =
                (Except.ok (some r.model_dump, changedResult "Kerberos created"),
                  [WriteCall.createCall (payload_params p)]) := by
              simp [step, hst, create, hcr, changedResult]
            rw [hconc] at hstep
            have h1 := congrArg Prod.fst hstep
            injection h1 with h2
            have h3 := congrArg Prod.snd h2
            exact Or.inr ⟨"Kerberos created", h3.symm⟩
    · constructor
      · simp [step, hst]
      · intro item result1 ws hstep
        have hconc : step p c ch none =
            (Except.ok (some [], initialResult), []) := by
          simp [step, hst]
        rw [hconc] at hstep
        have h1 := congrArg Prod.fst hstep
        injection h1 with h2
        have h3 := congrArg Prod.snd h2
        exact Or.inl h3.symm
  | some er =>
    by_cases hst : p.state == "present"
    · by_cases hpc : payload_changed (some er) p
      · cases ch with
        | true =>
          constructor
          · simp [step, hst, hpc, update]
          · intro item result1 ws hstep
            have hconc : step p c true (some er) =
                (Except.ok (none, changedResult "Kerberos updated"), []) := by
              simp [step, hst, hpc, update, changedResult]
            rw [hconc] at hstep
            have h1 := congrArg Prod.fst hstep
            injection h1 with h2
            have h3 := congrArg Prod.snd h2
            exact Or.inr ⟨"Kerberos updated", h3.symm⟩
        | false =>
          rcases hup : c.update er.id (payload_params p) with e | r
          · constructor
            · simp [step, hst, hpc, update, hup]
            · intro item result1 ws hstep
              have hconc : step p c false (some er) =
                  (Except.error e,
                    [WriteCall.updateCall er.id (payload_params p)]) := by
                simp [step, hst, hpc, update, hup]
              rw [hconc] at hstep
              exact absurd (congrArg Prod.fst hstep) (by simp)
          · constructor
            · simp [step, hst, hpc, update, hup]
            · intro item result1 ws hstep
              have hconc : step p c false (some er) =
                  (Except.ok (some r.model_dump, changedResult "Kerberos updated"),
                    [WriteCall.updateCall er.id (payload_params p)]) := by
                simp [step, hst, hpc, update, hup, changedResult]
              rw [hconc] at hstep
              have h1 := congrArg Prod.fst hstep
              injection h1 with h2
              have h3 := congrArg Prod.snd h2
              exact Or.inr ⟨"Kerberos updated", h3.symm⟩
      · constructor
        · simp [step, hst, hpc]
        · intro item result1 ws hstep
          have hconc : step p c ch (some er) =
              (Except.ok (some [], initialResult), []) := by
            simp [step, hst, hpc]
          rw [hconc] at hstep
          have h1 := congrArg Prod.fst hstep
          injection h1 with h2
          have h3 := congrArg Prod.snd h2
          exact Or.inl h3.symm
    · by_cases hab : p.state == "absent"
      · cases ch with
        | true =>
          constructor
          · simp [step, hst, hab, delete]
          · intro item result1 ws hstep
            have hconc : step p c true (some er) =
                (Except.ok (some [], changedResult "Kerberos deleted"), []) := by
              simp [step, hst, hab, delete, changedResult]
            rw [hconc] at hstep
            have h1 := congrArg Prod.fst hstep
            injection h1 with h2
            have h3 := congrArg Prod.snd h2
            exact Or.inr ⟨"Kerberos deleted", h3.symm⟩
        | false =>
          rcases hdl : c.delete er.id with e | u
          · constructor
            · simp [step, hst, hab, delete, hdl]
            · intro item result1 ws hstep
              have hconc : step p c false (some er) =
                  (Except.error e, [WriteCall.deleteCall er.id]) := by
                simp [step, hst, hab, delete, hdl]
              rw [hconc] at hstep
              exact absurd (congrArg Prod.fst hstep) (by simp)
          · constructor
            · simp [step, hst, hab, delete, hdl]
            · intro item result1 ws hstep
              have hconc : step p c false (some er) =
                  (Except.ok (some [], changedResult "Kerberos deleted"),
                    [WriteCall.deleteCall er.id]) := by
                simp [step, hst, hab, delete, hdl, changedResult]
              rw [hconc] at hstep
              have h1 := congrArg Prod.fst hstep
              injection h1 with h2
              have h3 := congrArg Prod.snd h2
              exact Or.inr ⟨"Kerberos deleted", h3.symm⟩
      · constructor
        · simp [step, hst, hab]
        · intro item result1 ws hstep
          have hconc : step p c ch (some er) =
              (Except.ok (some [], initialResult), []) := by
            simp [step, hst, hab]
          rw [hconc] at hstep
          have h1 := congrArg Prod.fst hstep
          injection h1 with h2
          have h3 := congrArg Prod.snd h2
          exact Or.inl h3.symm

/-- Every write log of a full invocation is empty or one call whose
payload, when it carries one, is exactly the payload params. -/
theorem run_command_writes (p : Params) (c : Client) (ch : Bool) :
    (run_command p c ch).2 = [] ∨
    (run_command p c ch).2 = [WriteCall.createCall (payload_params p)] ∨
    (∃ i, (run_command p c ch).2 = [WriteCall.updateCall i (payload_params p)]) ∨
    (∃ i, (run_command p c ch).2 = [WriteCall.deleteCall i]) := by
  rcases hf : find p c with f | ex
  · cases f with
    | apiError e => left; simp [run_command, hf]
    | multipleFound rs => left; simp [run_command, hf]
    | keyError k => left; simp [run_command, hf]
  · have hw : (run_command p c ch).2 = (step p c ch ex).2 := by
      rw [show (run_command p c ch).2 = (run_resolved p c ch ex).2 by
        simp [run_command, hf]]
      exact run_resolved_writes p c ch ex
    rw [hw]
    exact (step_shape p c ch ex).1

/-- On success, the result dict is an assembled or a check-mode form of
the initial dict, possibly with changed true and an action message. -/
theorem run_success_shape (p : Params) (c : Client) (ch : Bool) (r : ResultMap)
    (h : (run_command p c ch).1 = Outcome.success r) :
    (ch = true ∧ (r = initialResult ∨ ∃ s, r = changedResult s)) ∨
    (ch = false ∧ ((∃ ex item, r = assemble ex item initialResult) ∨
      ∃ ex item s, r = assemble ex item (changedResult s))) := by
  rcases hf : find p c with f | ex
  · exfalso
    cases f with
    | apiError e => rw [run_command, hf] at h; exact Outcome.noConfusion h
    | multipleFound rs => rw [run_command, hf] at h; exact Outcome.noConfusion h
    | keyError k => rw [run_command, hf] at h; exact Outcome.noConfusion h
  · have hr : (run_resolved p c ch ex).1 = Outcome.success r := by
      rw [← h]; simp [run_command, hf]
    rcases hs : step p c ch ex with ⟨res, ws⟩
    cases res with
    | error e =>
      exfalso
      rw [run_resolved, hs] at hr
      exact Outcome.noConfusion hr
    | ok pr =>
      rcases pr with ⟨item, result1⟩
      have hres := (step_shape p c ch ex).2 item result1 ws hs
      by_cases hch : ch = true
      · left
        refine ⟨hch, ?_⟩
        have : r = result1 := by
          rw [run_resolved, hs] at hr
          simp [hch] at hr
          exact hr.symm
        rw [this]
        exact hres
      · right
        have hch2 : ch = false := bool_not_true hch
        refine ⟨hch2, ?_⟩
        have : r = assemble ex item result1 := by
          rw [run_resolved, hs] at hr
          simp [hch2] at hr
          exact hr.symm
        rcases hres with h1 | ⟨s, h2⟩
        · exact Or.inl ⟨ex, item, by rw [this, h1]⟩
        · exact Or.inr ⟨ex, item, s, by rw [this, h2]⟩

/-- C6: any remote API failure — from the read, the list, or the single
issued write — aborts the invocation as one fatal failure whose message
carries the status, the reason and the body; the write is attempted at
most once (never retried), the outcome is never a changed-false success,
and no result object accompanies the failure. -/
theorem c6_api_failure (p : Params) (c : Client) (e : ApiErr) :
    (∀ ch, find p c = Except.error (Failure.apiError e) →
      run_command p c ch = (Outcome.failed (apiFailMsg e), [])) ∧
    (p.state = "present" → c.create (payload_params p) = Except.error e →
      run_resolved p c false none =
        (Outcome.failed (apiFailMsg e), [WriteCall.createCall (payload_params p)])) ∧
    (∀ er, p.state = "present" → payload_changed (some er) p = true →
      c.update er.id (payload_params p) = Except.error e →
      run_resolved p c false (some er) =
        (Outcome.failed (apiFailMsg e),
          [WriteCall.updateCall er.id (payload_params p)])) ∧
    (∀ er, p.state = "absent" → c.delete er.id = Except.error e →
      run_resolved p c false (some er) =
        (Outcome.failed (apiFailMsg e), [WriteCall.deleteCall er.id])) := by
  refine ⟨?_, ?_, ?_, ?_⟩
  · intro ch hf
    simp [run_command, hf]
  · intro hst hcr
    simp [run_resolved, step, hst, create, hcr]
  · intro er hst hpc hup
    simp [run_resolved, step, hst, hpc, update, hup]
  · intro er hst hdl
    simp [run_resolved, step, hst, delete, hdl]

/-- C6 witness: the failure path at concrete inputs — a failing read, a
failing create, a failing update and a failing delete. -/
theorem c6_api_failure_witness :
    run_command pUpd clientErr false = (Outcome.failed (apiFailMsg errSrv), []) ∧
    run_resolved pUpd clientErr false none =
      (Outcome.failed (apiFailMsg errSrv),
        [WriteCall.createCall [("comment", Value.vStr "new")]]) ∧
    run_resolved pUpd clientWriteErr false (some resOld) =
      (Outcome.failed (apiFailMsg errSrv),
        [WriteCall.updateCall (some (Value.vStr "k1")) [("comment", Value.vStr "new")]]) ∧
    run_resolved pDel clientWriteErr false (some resOld) =
      (Outcome.failed (apiFailMsg errSrv),
        [WriteCall.deleteCall (some (Value.vStr "k1"))]) := by
  refine ⟨?_, ?_, ?_, ?_⟩
  · exact (c6_api_failure pUpd clientErr errSrv).1 false rfl
  · exact (c6_api_failure pUpd clientErr errSrv).2.1 rfl rfl
  · exact (c6_api_failure pUpd clientWriteErr errSrv).2.2.1 resOld rfl (by decide) rfl
  · exact (c6_api_failure pDel clientWriteErr errSrv).2.2.2 resOld rfl rfl

/-- C7: the drift decision is true when no existing resource was resolved;
otherwise it is true exactly when some payload key has a differing value
in, or is missing from, the existing resource's non-None serialized
mapping — in particular, existing fields outside the payload never trigger
a change. -/
theorem c7_drift_detection (r : Resource) (p : Params) :
    payload_changed none p = true ∧
    (payload_changed (some r) p = true ↔
      ∃ kv, kv ∈ payload_params p ∧ ¬ r.model_dump.lookup kv.1 = some kv.2) ∧
    ((∀ kv, kv ∈ payload_params p → r.model_dump.lookup kv.1 = some kv.2) →
      payload_changed (some r) p = false) := by
  have hiff : payload_changed (some r) p = true ↔
      ∃ kv, kv ∈ payload_params p ∧ ¬ r.model_dump.lookup kv.1 = some kv.2 := by
    simp [payload_changed, is_changed, List.any_eq_true]
  refine ⟨rfl, hiff, ?_⟩
  intro hall
  apply bool_not_true
  intro htrue
  rcases hiff.mp htrue with ⟨kv, hmem, hne⟩
  exact hne (hall kv hmem)

/-- C7 witness: the drift decision at concrete inputs — no drift when the
payload matches, drift when the comment differs, and extra existing fields
(id here) do not trigger a change. -/
theorem c7_drift_detection_witness :
    payload_changed (some resNew) pUpd = false ∧
    payload_changed (some resOld) pUpd = true := by
  constructor
  · exact (c7_drift_detection resNew pUpd).2.2 (by decide)
  · exact (c7_drift_detection resOld pUpd).2.1.mpr
      ⟨("comment", Value.vStr "new"), by decide, by decide⟩

/-- C8: the desired payload is exactly the declared items whose value is
not None and whose key is not a control field (state, id, csp_url,
api_key); unset fields never appear; and every payload a write carries is
exactly this payload, built once from the declared input. -/
theorem c8_payload_construction (p : Params) :
    (∀ k v, ((k, v) ∈ payload_params p ↔
      ((k, some v) ∈ p.items ∧ ¬ k ∈ exclude))) ∧
    (∀ c ch pl, WriteCall.createCall pl ∈ (run_command p c ch).2 →
      pl = payload_params p) ∧
    (∀ c ch i pl, WriteCall.updateCall i pl ∈ (run_command p c ch).2 →
      pl = payload_params p) := by
  refine ⟨?_, ?_, ?_⟩
  · intro k v
    constructor
    · intro hmem
      rcases List.mem_filterMap.mp hmem with ⟨⟨k1, v1⟩, hin, hf⟩
      cases v1 with
      | none => simp at hf
      | some w =>
        by_cases hex : k1 ∈ exclude
        · simp [hex] at hf
        · simp [hex] at hf
          rcases hf with ⟨hk, hv⟩
          subst hk
          subst hv
          exact ⟨hin, hex⟩
    · rintro ⟨hin, hex⟩
      exact List.mem_filterMap.mpr ⟨(k, some v), hin, by simp [hex]⟩
  · intro c ch pl hmem
    rcases run_command_writes p c ch with h | h | ⟨i, h⟩ | ⟨i, h⟩ <;> rw [h] at hmem
    · exact absurd hmem (List.not_mem_nil _)
    · have h2 := List.mem_singleton.mp hmem
      injection h2 with h3
    · exact absurd (List.mem_singleton.mp hmem) (by simp)
    · exact absurd (List.mem_singleton.mp hmem) (by simp)
  · intro c ch i pl hmem
    rcases run_command_writes p c ch with h | h | ⟨j, h⟩ | ⟨j, h⟩ <;> rw [h] at hmem
    · exact absurd hmem (List.not_mem_nil _)
    · exact absurd (List.mem_singleton.mp hmem) (by simp)
    · have h2 := List.mem_singleton.mp hmem
      injection h2 with h3 h4
    · exact absurd (List.mem_singleton.mp hmem) (by simp)

/-- C8 witness: the payload at a concrete declared input — the comment is
carried, the unset tags and every control field are excluded — and a
concrete issued write carries exactly this payload. -/
theorem c8_payload_construction_witness :
    (("comment", Value.vStr "new") ∈ payload_params pUpd) ∧
    (¬ ∃ v, ("id", v) ∈ payload_params pUpd) ∧
    (¬ ∃ v, ("state", v) ∈ payload_params pUpd) ∧
    ([("comment", Value.vStr "new")] = payload_params pUpd) := by
  refine ⟨?_, ?_, ?_, ?_⟩
  · exact ((c8_payload_construction pUpd).1 "comment" (Value.vStr "new")).mpr
      ⟨by decide, by decide⟩
  · intro hex
    rcases hex with ⟨v, hv⟩
    have h0 : payload_params pUpd = [("comment", Value.vStr "new")] := rfl
    rw [h0] at hv
    simp at hv
  · intro hex
    rcases hex with ⟨v, hv⟩
    have h0 : payload_params pUpd = [("comment", Value.vStr "new")] := rfl
    rw [h0] at hv
    simp at hv
  · exact (c8_payload_construction pUpd).2.2 clientA false
      (some (Value.vStr "k1")) [("comment", Value.vStr "new")] (by decide)

/-- C9 counterexample: the claim says msg is populated on every success
path including no-ops. On the no-op run below (existing present, no
drift, state present) the invocation succeeds but the result has no msg
key at all. -/
theorem c9_msg_counterexample :
    (run_command pOld clientA false).1 = Outcome.success
      [("changed", RVal.rBool false), ("object", RVal.rMap []),
       ("id", RVal.rVal (Value.vStr "k1")),
       ("diff", RVal.rDiff [("id", Value.vStr "k1"), ("comment", Value.vStr "old")]
         (RVal.rMap []))] ∧
    msgOf (run_command pOld clientA false).1 = none := by
  exact ⟨rfl, rfl⟩

/-- C9 amended: every successful non-dry-run invocation carries changed,
object, id and diff; the msg field is populated exactly on the changed
(create, update, delete) paths and is absent on the no-op outcomes. -/
theorem c9_result_surface (p : Params) (c : Client) (r : ResultMap)
    (h : (run_command p c false).1 = Outcome.success r) :
    (r.lookup "changed").isSome ∧ (r.lookup "object").isSome ∧
    (r.lookup "id").isSome ∧ (r.lookup "diff").isSome ∧
    ((r.lookup "msg").isSome ↔ r.lookup "changed" = some (RVal.rBool true)) := by
  rcases run_success_shape p c false r h with ⟨hch, _⟩ | ⟨_, hsh⟩
  · exact absurd hch (by decide)
  · rcases hsh with ⟨ex, item, hr⟩ | ⟨ex, item, s, hr⟩
    · rw [hr, assemble_init]
      refine ⟨rfl, rfl, rfl, rfl, ?_⟩
      exact iff_of_false (fun hms => Bool.noConfusion hms)
        (fun hc => Bool.noConfusion (RVal.rBool.inj (Option.some.inj hc)))
    · rw [hr, assemble_changed]
      exact ⟨rfl, rfl, rfl, rfl, iff_of_true rfl rfl⟩

/-- The result of the concrete delete run used as the C9 witness. -/
def rDel : ResultMap :=
  [("changed", RVal.rBool true), ("object", RVal.rMap []),
   ("id", RVal.rVal (Value.vStr "k1")), ("msg", RVal.rStr "Kerberos deleted"),
   ("diff", RVal.rDiff [("id", Value.vStr "k1"), ("comment", Value.vStr "old")]
     (RVal.rMap []))]

/-- C9 amended witness: the surface at the concrete delete run — all four
fields present, and msg present because changed is true. -/
theorem c9_result_surface_witness :
    (rDel.lookup "changed").isSome ∧ (rDel.lookup "object").isSome ∧
    (rDel.lookup "id").isSome ∧ (rDel.lookup "diff").isSome ∧
    ((rDel.lookup "msg").isSome ↔ rDel.lookup "changed" = some (RVal.rBool true)) :=
  c9_result_surface pDel clientA rDel rfl

/-- C10: the result dict starts as changed false, object the empty
mapping, id None; every success carries these three keys, and under
dry-run the object and id keys are still present holding exactly these
defaults. -/
theorem c10_result_defaults (p : Params) (c : Client) (ch : Bool) (r : ResultMap)
    (h : (run_command p c ch).1 = Outcome.success r) :
    initialResult = [("changed", RVal.rBool false), ("object", RVal.rMap []),
      ("id", RVal.rNull)] ∧
    (r.lookup "changed").isSome ∧ (r.lookup "object").isSome ∧
    (r.lookup "id").isSome ∧
    (ch = true → r.lookup "object" = some (RVal.rMap []) ∧
      r.lookup "id" = some RVal.rNull) := by
  rcases run_success_shape p c ch r h with ⟨hch, hsh⟩ | ⟨hch, hsh⟩
  · subst hch
    rcases hsh with hr | ⟨s, hr⟩
    · rw [hr]
      exact ⟨rfl, rfl, rfl, rfl, fun _ => ⟨rfl, rfl⟩⟩
    · rw [hr]
      exact ⟨rfl, rfl, rfl, rfl, fun _ => ⟨rfl, rfl⟩⟩
  · subst hch
    rcases hsh with ⟨ex, item, hr⟩ | ⟨ex, item, s, hr⟩
    · rw [hr, assemble_init]
      exact ⟨rfl, rfl, rfl, rfl, fun hcontra => Bool.noConfusion hcontra⟩
    · rw [hr, assemble_changed]
      exact ⟨rfl, rfl, rfl, rfl, fun hcontra => Bool.noConfusion hcontra⟩

/-- The result of the concrete dry-run delete used as the C10 witness. -/
def rDelCheck : ResultMap :=
  [("changed", RVal.rBool true), ("object", RVal.rMap []),
   ("id", RVal.rNull), ("msg", RVal.rStr "Kerberos deleted")]

/-- C10 witness: the defaults at the concrete dry-run delete — the three
keys are present and object and id hold the initial empty mapping and
null. -/
theorem c10_result_defaults_witness :
    initialResult = [("changed", RVal.rBool false), ("object", RVal.rMap []),
      ("id", RVal.rNull)] ∧
    (rDelCheck.lookup "changed").isSome ∧ (rDelCheck.lookup "object").isSome ∧
    (rDelCheck.lookup "id").isSome ∧
    (true = true → rDelCheck.lookup "object" = some (RVal.rMap []) ∧
      rDelCheck.lookup "id" = some RVal.rNull) :=
  c10_result_defaults pDel clientA true rDelCheck rfl

end BloxoneKerberos
